import Mathlib

/-!
Verification of the multi-source quote-resolution core of the
Portfolio-Tracker repository (files `src/price_fetcher.py`, `src/scrapers.py`,
and the `api_historical` route of `web_app.py`).

Each Lean definition below is a shallow embedding of one Python function of
the repository, translated line by line from the source.  Network calls are
abstracted as oracle parameters (the adapters' results); machine floats are
modelled with `ℚ`; Python `None` with `Option`; the process clock with a `Nat`
number of seconds passed in explicitly.
-/

namespace Portfolio

/-! ## Numeric/locale parser
Embedding of `MorningstarScraper._parsear_precio` (scrapers.py 656-677) and
`JustETFScraper._parsear_precio` (scrapers.py 1233-1256). -/

/-- Characters removed by `re.sub(r'[€$£\s]', '', ...)` combined with the
preceding `texto.strip()`: currency symbols and whitespace. -/
def esMonedaOEspacio (c : Char) : Bool :=
  c = '€' || c = '$' || c = '£' || c.isWhitespace

/-- `limpio = texto.strip(); limpio = re.sub(r'[€$£\s]', '', limpio)`. -/
def quitarMonedaEspacios (l : List Char) : List Char :=
  l.filter (fun c => !esMonedaOEspacio c)

/-- Index of the last occurrence of `c` in `l`, i.e. Python `str.rfind` on a
string known to contain `c` (the only way the parsers use it). -/
def lastIdx (l : List Char) (c : Char) : Nat :=
  ((l.enum.filter (fun p => p.2 = c)).map Prod.fst).foldl max 0

/-- The separator-disambiguation step shared by both parsers:

```
if ',' in limpio and '.' in limpio:
    if limpio.rfind(',') > limpio.rfind('.'):
        limpio = limpio.replace('.', '').replace(',', '.')
    else:
        limpio = limpio.replace(',', '')
elif ',' in limpio:
    limpio = limpio.replace(',', '.')
```
-/
def arreglarSeparadores (l : List Char) : List Char :=
  if ',' ∈ l ∧ '.' ∈ l then
    if lastIdx l ',' > lastIdx l '.' then
      (l.filter (fun c => c ≠ '.')).map (fun c => if c = ',' then '.' else c)
    else
      l.filter (fun c => c ≠ ',')
  else if ',' ∈ l then
    l.map (fun c => if c = ',' then '.' else c)
  else
    l

/-- Numeric value of a digit string. -/
def digitsVal (l : List Char) : Nat :=
  l.foldl (fun a c => a * 10 + (c.toNat - '0'.toNat)) 0

/-- Model of Python `float(s)` on plain decimal literals
(`[+-] digits [. digits]`, at least one digit): the forms the cleaned price
strings can take.  Anything else raises `ValueError` in Python and is `none`
here. -/
def pyFloat (l : List Char) : Option ℚ :=
  let (sgn, rest) : ℚ × List Char :=
    match l with
    | '-' :: r => (-1, r)
    | '+' :: r => (1, r)
    | r => (1, r)
  let intPart := rest.takeWhile (fun c => c.isDigit)
  let rest2 := rest.drop intPart.length
  match rest2 with
  | [] => if intPart.isEmpty then none else some (sgn * digitsVal intPart)
  | '.' :: frac =>
    if frac.all (fun c => c.isDigit) ∧ (!intPart.isEmpty || !frac.isEmpty) then
      some (sgn * ((digitsVal intPart : ℚ) + (digitsVal frac : ℚ) / (10 ^ frac.length)))
    else none
  | _ => none

/-- `MorningstarScraper._parsear_precio` (scrapers.py 656-677): clean, fix
separators, `float(...)`; any exception yields `None`.  There is no
positivity check in this variant. -/
def morningstar_parsear_precio (s : String) : Option ℚ :=
  pyFloat (arreglarSeparadores (quitarMonedaEspacios s.data))

/-- `JustETFScraper._parsear_precio` (scrapers.py 1233-1256): additionally
strips `[A-Za-z]`, returns `None` on empty input or empty cleaned text, and
returns the value only if strictly positive
(`return valor if valor > 0 else None`). -/
def justetf_parsear_precio (s : String) : Option ℚ :=
  if s.data.isEmpty then none
  else
    let limpio := (quitarMonedaEspacios s.data).filter (fun c => !c.isAlpha)
    if limpio.isEmpty then none
    else
      match pyFloat (arreglarSeparadores limpio) with
      | some v => if v > 0 then some v else none
      | none => none

/-! ## Quotes, adapters and the fallback resolver
Embedding of `PriceFetcher` (price_fetcher.py) and
`buscar_precio_alternativo` (scrapers.py 1264-1292).  The three upstream
sources are abstracted as oracle functions from the lookup key to the
adapter's result (`None` on any transport/parse failure, absorbed inside the
adapter). -/

/-- The quote dictionary returned by the adapters; only the fields the
resolution logic inspects (`precio`, `nombre`) plus `fuente` to tell results
apart.  A returned dictionary is always non-empty, hence truthy in Python. -/
structure Quote where
  precio : ℚ
  nombre : String
  fuente : String
  deriving DecidableEq, Repr

/-- Oracle results of the three provider adapters: `_obtener_yahoo` by
ticker, `JustETFScraper.buscar_por_isin` and
`MorningstarScraper.buscar_por_isin` by ISIN. -/
structure Net where
  yahoo : String → Option Quote
  justetf : String → Option Quote
  morningstar : String → Option Quote

/-- `buscar_precio_alternativo` (scrapers.py 1264-1292): try justETF first,
accept its result when `precio > 0` or the name differs from the ISIN;
otherwise try Morningstar with the same acceptance test; otherwise `None`. -/
def buscar_precio_alternativo (net : Net) (isin : String) : Option Quote :=
  let desdeMorningstar :=
    match net.morningstar isin with
    | some r => if r.precio > 0 ∨ r.nombre ≠ isin then some r else none
    | none => none
  match net.justetf isin with
  | some r => if r.precio > 0 ∨ r.nombre ≠ isin then some r else desdeMorningstar
  | none => desdeMorningstar

/-- Python `str.strip()`: drop leading and trailing whitespace. -/
def pyStrip (l : List Char) : List Char :=
  ((l.dropWhile Char.isWhitespace).reverse.dropWhile Char.isWhitespace).reverse

/-- Python truthiness of the optional `isin` argument (`None` and `""` are
falsy). -/
def isinTruthy : Option String → Bool
  | none => false
  | some s => s ≠ ""

/-- `cache_key = f"{ticker}_{isin}" if isin else ticker`
(price_fetcher.py 51). -/
def cache_key (ticker : String) (isin : Option String) : String :=
  if isinTruthy isin then ticker ++ "_" ++ isin.getD "" else ticker

/-- `PriceFetcher._cache`: a dict mapping cache key to
`{'timestamp': ..., 'data': ...}`. -/
def PFState := List (String × Nat × Quote)

/-- First-match association lookup, the model of a Python dict read. -/
def assocLookup (s : List (String × Nat × Quote)) (k : String) :
    Option (Nat × Quote) :=
  match s with
  | [] => none
  | (k', v) :: rest => if k' = k then some v else assocLookup rest k

/-- Dict write `cache[key] = {'timestamp': now, 'data': q}` (replaces any
previous entry for the key). -/
def assocInsert (s : List (String × Nat × Quote)) (k : String) (now : Nat)
    (q : Quote) : List (String × Nat × Quote) :=
  (k, now, q) :: s.filter (fun e => e.1 ≠ k)

/-- `self._cache_duration = timedelta(minutes=15)` in seconds. -/
def PF_CACHE_SECONDS : Nat := 900

/-- The cache check of `obtener_precio` (price_fetcher.py 53-57): serve the
stored data only when the key is present and
`now - cached['timestamp'] < self._cache_duration`. -/
def pfCacheGet (s : PFState) (now : Nat) (k : String) : Option Quote :=
  match assocLookup s k with
  | some (ts, q) => if now - ts < PF_CACHE_SECONDS then some q else none
  | none => none

/-- The fetch portion of `obtener_precio` (price_fetcher.py 59-66): Yahoo by
ticker when `ticker and ticker.strip()`, then the alternative ISIN sources
when that returned `None`, `isin` is truthy and the scrapers imported
(modelled as available). -/
def resolver_chain (net : Net) (ticker : String) (isin : Option String) :
    Option Quote :=
  let resultado := if pyStrip ticker.data ≠ [] then net.yahoo ticker else none
  match resultado with
  | some r => some r
  | none =>
    if isinTruthy isin then buscar_precio_alternativo net (isin.getD "")
    else none

/-- `PriceFetcher.obtener_precio` (price_fetcher.py 34-75).  Returns the
result, the new cache state, and whether any network fetch was performed
(`false` exactly on the cache-hit early return). -/
def obtener_precio (net : Net) (s : PFState) (now : Nat) (ticker : String)
    (isin : Option String) : Option Quote × PFState × Bool :=
  let key := cache_key ticker isin
  match pfCacheGet s now key with
  | some q => (some q, s, false)
  | none =>
    match resolver_chain net ticker isin with
    | some q => (some q, assocInsert s key now q, true)
    | none => (none, s, true)

/-- `PriceFetcher.obtener_precio_por_isin` (price_fetcher.py 115-145): key
`f"isin_{isin}"`, same cache read, fetch through
`buscar_precio_alternativo`, write only on a non-`None` result. -/
def obtener_precio_por_isin (net : Net) (s : PFState) (now : Nat)
    (isin : String) : Option Quote × PFState × Bool :=
  let key := "isin_" ++ isin
  match pfCacheGet s now key with
  | some q => (some q, s, false)
  | none =>
    match buscar_precio_alternativo net isin with
    | some q => (some q, assocInsert s key now q, true)
    | none => (none, s, true)

/-- Modelled from the spec (claim C1, for comparison only): the ordering
policy as the claim states it — Yahoo by ticker first; if that yields no
result and an ISIN is present, the fund-data adapter (Morningstar) then the
ETF-data adapter (justETF), the first Quote with `price > 0` winning. -/
def resolve_claim_order (net : Net) (ticker : String) (isin : Option String) :
    Option Quote :=
  let resultado := if pyStrip ticker.data ≠ [] then net.yahoo ticker else none
  match resultado with
  | some r => some r
  | none =>
    if isinTruthy isin then
      let i := isin.getD ""
      let desdeJustetf :=
        match net.justetf i with
        | some r => if r.precio > 0 then some r else none
        | none => none
      match net.morningstar i with
      | some r => if r.precio > 0 then some r else desdeJustetf
      | none => desdeJustetf
    else none

/-- The amended ordering policy (claim C1): Yahoo by ticker first; if that
yields no result and an ISIN is present, the ETF-data adapter (justETF)
first and then the fund-data adapter (Morningstar), accepting the first
result whose price is positive or whose name differs from the ISIN. -/
def resolve_amended_order (net : Net) (ticker : String)
    (isin : Option String) : Option Quote :=
  let resultado := if pyStrip ticker.data ≠ [] then net.yahoo ticker else none
  match resultado with
  | some r => some r
  | none =>
    if isinTruthy isin then
      let i := isin.getD ""
      let desdeMorningstar :=
        match net.morningstar i with
        | some r => if r.precio > 0 ∨ r.nombre ≠ i then some r else none
        | none => none
      match net.justetf i with
      | some r => if r.precio > 0 ∨ r.nombre ≠ i then some r else desdeMorningstar
      | none => desdeMorningstar
    else none

/-! ## Scraped-provider caches
`MorningstarScraper.__init__` / `JustETFScraper.__init__` each create a
per-instance dict cache with `timedelta(minutes=30)` TTL, read per entry in
`buscar_por_isin` (scrapers.py 469-473 and 699-703). -/

/-- `self._cache_duration = timedelta(minutes=30)` in seconds. -/
def SCRAPER_CACHE_SECONDS : Nat := 1800

/-- A scraper's `self._cache`: isin ↦ (timestamp, data). -/
def ScraperState := List (String × Nat × Quote)

/-- The per-entry cache check of `buscar_por_isin`: serve only when
`now - cached['timestamp'] < self._cache_duration`. -/
def scraperCacheGet (s : ScraperState) (now : Nat) (isin : String) :
    Option Quote :=
  match assocLookup s isin with
  | some (ts, q) => if now - ts < SCRAPER_CACHE_SECONDS then some q else none
  | none => none

/-! ## Daily-change cache and computation
Embedding of the module-level `_cambio_diario_cache` / `_cache_timestamp`
(scrapers.py 21-24), `obtener_cambio_diario_yahoo` (scrapers.py 27-97),
`_obtener_cambio_historico_justetf` (scrapers.py 365-399) and the change
stage of `obtener_cambio_diario_con_info` (scrapers.py 146-203).
Calendar dates are day numbers. -/

/-- `_CACHE_DURATION_MINUTES = 15` in seconds. -/
def CD_CACHE_SECONDS : Nat := 900

/-- The module-level daily-change cache: the entry dict plus the single
shared `_cache_timestamp` (there is no per-entry timestamp in the source:
each entry is just `{'cambio': value}`). -/
structure CDState where
  cache : List (String × ℚ)
  ts : Option Nat
  deriving Repr

/-- The cache check shared by `obtener_cambio_diario_yahoo` and
`obtener_cambio_diario_justetf` (scrapers.py 47-49 and 116-120): serve when
the one global `_cache_timestamp` is set and fresh and the key is present. -/
def cdCacheGet (s : CDState) (now : Nat) (k : String) : Option ℚ :=
  match s.ts with
  | some t =>
    if now - t < CD_CACHE_SECONDS then
      match s.cache.lookup k with
      | some v => some v
      | none => none
    else none
  | none => none

/-- Cache write: `_cambio_diario_cache[key] = {'cambio': c};
_cache_timestamp = datetime.now()` — it refreshes the single shared
timestamp. -/
def cdCachePut (s : CDState) (now : Nat) (k : String) (c : ℚ) : CDState :=
  { cache := (k, c) :: s.cache.filter (fun e => e.1 ≠ k), ts := some now }

/-- What Yahoo returns for one lookup: the `fast_info` pair and the `5d`
history as (date, close) pairs in ascending date order. -/
structure YahooData where
  last_price : Option ℚ
  prev_close : Option ℚ
  hist : List (Nat × ℚ)

/-- The history fallback of `obtener_cambio_diario_yahoo`
(scrapers.py 71-92): needs at least two points, the last two dates at most
4 calendar days apart, and a positive previous close. -/
def yahooHistChange (hist : List (Nat × ℚ)) : Option ℚ :=
  if hist.length ≥ 2 then
    let fechaHoy := (hist.getD (hist.length - 1) (0, 0)).1
    let fechaAyer := (hist.getD (hist.length - 2) (0, 0)).1
    if fechaHoy - fechaAyer ≤ 4 then
      let precioAyer := (hist.getD (hist.length - 2) (0, 0)).2
      let precioHoy := (hist.getD (hist.length - 1) (0, 0)).2
      if precioAyer > 0 then
        some ((precioHoy - precioAyer) / precioAyer * 100)
      else none
    else none
  else none

/-- `obtener_cambio_diario_yahoo` (scrapers.py 27-97): check the shared
cache, then the `fast_info` pair (`if last_price and prev_close and
prev_close > 0`), then the dated history fallback; cache any computed
change.  Returns the change, the new cache state, and whether Yahoo was
actually queried (`false` on a cache hit). -/
def obtener_cambio_diario_yahoo (data : YahooData) (s : CDState) (now : Nat)
    (key : String) : Option ℚ × CDState × Bool :=
  match cdCacheGet s now key with
  | some c => (some c, s, false)
  | none =>
    match data.last_price, data.prev_close with
    | some lp, some pc =>
      if lp ≠ 0 ∧ pc > 0 then
        let cambio := (lp - pc) / pc * 100
        (some cambio, cdCachePut s now key cambio, true)
      else
        match yahooHistChange data.hist with
        | some cambio => (some cambio, cdCachePut s now key cambio, true)
        | none => (none, s, true)
    | _, _ =>
      match yahooHistChange data.hist with
      | some cambio => (some cambio, cdCachePut s now key cambio, true)
      | none => (none, s, true)

/-- `_obtener_cambio_historico_justetf` (scrapers.py 365-399): requires at
least two prices; when at least two dates are present and the last two are
more than 4 days apart the change is suppressed; otherwise it is computed
from the last two prices when the previous one is positive. -/
def justetfHistCambio (fechas : List Nat) (precios : List ℚ) : Option ℚ :=
  if precios.length ≥ 2 then
    if fechas.length ≥ 2 ∧
        fechas.getD (fechas.length - 1) 0 - fechas.getD (fechas.length - 2) 0 > 4 then
      none
    else
      let precioAyer := precios.getD (precios.length - 2) 0
      let precioHoy := precios.getD (precios.length - 1) 0
      if precioAyer > 0 then
        some ((precioHoy - precioAyer) / precioAyer * 100)
      else none
  else none

/-- One point of the justETF `performance-chart` series
(`{'date': ..., 'value': {'raw': ...}}`); the date as a day number. -/
structure PuntoSerie where
  fecha : Nat
  valor : ℚ
  deriving DecidableEq, Repr

/-- The change stage of `obtener_cambio_diario_con_info`
(scrapers.py 157-203): query the 15-day `performance-chart`; with at least
two points and a positive previous value, compute the change from the last
two points — with no check on how far apart their dates are; otherwise fall
back to `obtener_cambio_diario_justetf`, whose result is the `fallback`
oracle parameter. -/
def conInfoCambio (series : Option (List PuntoSerie)) (fallback : Option ℚ) :
    Option ℚ :=
  match series with
  | some pts =>
    if pts.length ≥ 2 then
      let precioHoy := (pts.getD (pts.length - 1) ⟨0, 0⟩).valor
      let precioAyer := (pts.getD (pts.length - 2) ⟨0, 0⟩).valor
      if precioAyer > 0 then
        some ((precioHoy - precioAyer) / precioAyer * 100)
      else fallback
    else fallback
  | none => fallback

/-! ## The whole-core cache state and `limpiar_cache` -/

/-- All caches of the quote-resolution core: the resolver's quote cache
(`PriceFetcher._cache`), the two scraped-provider caches
(`morningstar_scraper._cache`, `justetf_scraper._cache`) and the
module-level daily-change cache. -/
structure CoreState where
  pf : PFState
  morningstar : ScraperState
  justetf : ScraperState
  cd : CDState

/-- `PriceFetcher.limpiar_cache` (price_fetcher.py 269-272):
`self._cache.clear()` — it touches only the fetcher's own quote cache. -/
def limpiar_cache (s : CoreState) : CoreState :=
  { s with pf := ([] : List (String × Nat × Quote)) }

/-! ## Historical series: the justETF branch of `api_historical`
Embedding of web_app.py 4539-4613 and the routing predicates of
web_app.py 4440-4491 and 4679-4681. -/

/-- Python `round(x, 2)`; the tie-breaking rule (half-to-even on floats) is
immaterial to the claims, which use the same rounding on both sides. -/
def round2 (q : ℚ) : ℚ := ((⌊q * 100 + 1 / 2⌋ : ℤ) : ℚ) / 100

/-- The tail of the justETF branch of `api_historical` (web_app.py
4571-4613): round the series prices to 2 decimals, replace only the last
one with the rounded live gettex price when that was obtained (truthy),
and when no daily change was already obtained recompute it from the new
last price against the series' own penultimate (unreplaced) price.  Returns
(fechas, precios, cambio_diario). -/
def justetf_branch (fechas : List String) (precios : List ℚ)
    (precio_gettex : Option ℚ) (cambio_prev : Option ℚ) :
    List String × List ℚ × Option ℚ :=
  let precios1 := precios.map round2
  let preciosFinal :=
    match precio_gettex with
    | some p => if p ≠ 0 then precios1.set (precios1.length - 1) (round2 p) else precios1
    | none => precios1
  let cambio :=
    match cambio_prev with
    | some c => some c
    | none =>
      if preciosFinal.length ≥ 2 then
        let precioHoy := preciosFinal.getD (preciosFinal.length - 1) 0
        let precioAyer := precios.getD (precios.length - 2) 0
        if precioAyer > 0 then
          some ((precioHoy - precioAyer) / precioAyer * 100)
        else none
      else none
  (fechas, preciosFinal, cambio)

/-! ## `api_historical` routing predicates -/

/-- `es_etf_europeo = isin and isin[:2] in ['IE','LU','DE','FR','NL','GB']`
(web_app.py 4440). -/
def es_etf_europeo (isin : String) : Bool :=
  isin ≠ "" &&
    (["IE", "LU", "DE", "FR", "NL", "GB"].contains (String.mk (isin.data.take 2)))

/-- The placeholder strings treated as "no ticker" (web_app.py 4456, 4483,
4679). -/
def tickerPlaceholder (t : String) : Bool :=
  ["null", "undefined", "none", ""].contains t

/-- `ticker_es_isin = ticker and len(ticker) == 12 and ticker[:2].isalpha()
and ticker[2:].isalnum()` (web_app.py 4482). -/
def ticker_es_isin (t : String) : Bool :=
  t ≠ "" && t.data.length = 12 && (t.data.take 2).all (fun c => c.isAlpha)
    && (t.data.drop 2).all (fun c => c.isAlphanum)

/-- `ticker_valido_yahoo` (web_app.py 4483): a non-placeholder ticker that
is not ISIN-shaped. -/
def ticker_valido_yahoo (t : String) : Bool :=
  t ≠ "" && !tickerPlaceholder t && !ticker_es_isin t

/-- Whether `api_historical` calls `price_fetcher.obtener_historico(ticker,
...)`: in the European-ETF branch only for `ticker_valido_yahoo`
(web_app.py 4486-4488); in the non-European branch for any non-placeholder
ticker, with no ISIN-shape test (web_app.py 4679-4681). -/
def api_historical_yahoo_attempted (ticker isin : String) : Bool :=
  if es_etf_europeo isin then ticker_valido_yahoo ticker
  else ticker ≠ "" && !tickerPlaceholder ticker

/-! # Theorems -/

/-- Claim C4: `parse_price` strips currency symbols and whitespace and
disambiguates separators — with both `,` and `.` present the right-most one
is the decimal point and the other a thousands separator, with only `,`
present it is the decimal separator, with only `.` present the string is
unchanged — and on the concrete inputs `"1.234,56"`, `"1,234.56"`,
`"36,00"`, `""`, `"abc"` both parser variants return `1234.56`, `1234.56`,
`36.0`, null and null respectively. -/
theorem parse_price_separator_policy_and_examples :
    (∀ l : List Char, ',' ∉ l → arreglarSeparadores l = l) ∧
    (∀ l : List Char, ',' ∈ l → '.' ∉ l →
      arreglarSeparadores l = l.map (fun c => if c = ',' then '.' else c)) ∧
    (∀ l : List Char, ',' ∈ l → '.' ∈ l → lastIdx l ',' > lastIdx l '.' →
      arreglarSeparadores l
        = (l.filter (fun c => c ≠ '.')).map (fun c => if c = ',' then '.' else c)) ∧
    (∀ l : List Char, ',' ∈ l → '.' ∈ l → ¬ lastIdx l ',' > lastIdx l '.' →
      arreglarSeparadores l = l.filter (fun c => c ≠ ',')) ∧
    morningstar_parsear_precio "1.234,56" = some (123456 / 100) ∧
    morningstar_parsear_precio "1,234.56" = some (123456 / 100) ∧
    morningstar_parsear_precio "36,00" = some 36 ∧
    morningstar_parsear_precio "" = none ∧
    morningstar_parsear_precio "abc" = none ∧
    justetf_parsear_precio "1.234,56" = some (123456 / 100) ∧
    justetf_parsear_precio "1,234.56" = some (123456 / 100) ∧
    justetf_parsear_precio "36,00" = some 36 ∧
    justetf_parsear_precio "" = none ∧
    justetf_parsear_precio "abc" = none := by
  refine ⟨?_, ?_, ?_, ?_, ?_, ?_, ?_, by decide, by decide, ?_, ?_, ?_, by decide, by decide⟩
  · intro l h
    simp [arreglarSeparadores, h]
  · intro l h1 h2
    simp [arreglarSeparadores, h1, h2]
  · intro l h1 h2 h3
    simp [arreglarSeparadores, h1, h2, h3]
  · intro l h1 h2 h3
    simp [arreglarSeparadores, h1, h2, h3]
  · unfold morningstar_parsear_precio
    rw [show arreglarSeparadores (quitarMonedaEspacios ("1.234,56").data)
        = ['1', '2', '3', '4', '.', '5', '6'] from by decide]
    simp +decide [pyFloat, digitsVal]
    norm_num
  · unfold morningstar_parsear_precio
    rw [show arreglarSeparadores (quitarMonedaEspacios ("1,234.56").data)
        = ['1', '2', '3', '4', '.', '5', '6'] from by decide]
    simp +decide [pyFloat, digitsVal]
    norm_num
  · unfold morningstar_parsear_precio
    rw [show arreglarSeparadores (quitarMonedaEspacios ("36,00").data)
        = ['3', '6', '.', '0', '0'] from by decide]
    simp +decide [pyFloat, digitsVal]
  · unfold justetf_parsear_precio
    rw [show ((quitarMonedaEspacios ("1.234,56").data).filter (fun c => !c.isAlpha))
        = ['1', '.', '2', '3', '4', ',', '5', '6'] from by decide]
    simp +decide only []
    rw [show arreglarSeparadores ['1', '.', '2', '3', '4', ',', '5', '6']
        = ['1', '2', '3', '4', '.', '5', '6'] from by decide]
    simp +decide [pyFloat, digitsVal]
    norm_num
  · unfold justetf_parsear_precio
    rw [show ((quitarMonedaEspacios ("1,234.56").data).filter (fun c => !c.isAlpha))
        = ['1', ',', '2', '3', '4', '.', '5', '6'] from by decide]
    simp +decide only []
    rw [show arreglarSeparadores ['1', ',', '2', '3', '4', '.', '5', '6']
        = ['1', '2', '3', '4', '.', '5', '6'] from by decide]
    simp +decide [pyFloat, digitsVal]
    norm_num
  · unfold justetf_parsear_precio
    rw [show ((quitarMonedaEspacios ("36,00").data).filter (fun c => !c.isAlpha))
        = ['3', '6', ',', '0', '0'] from by decide]
    simp +decide only []
    rw [show arreglarSeparadores ['3', '6', ',', '0', '0']
        = ['3', '6', '.', '0', '0'] from by decide]
    simp +decide [pyFloat, digitsVal]

/-- Witness for C4: the separator policy instantiated at a concrete
comma-free input. -/
theorem parse_price_separator_policy_witness :
    arreglarSeparadores ['3', '6'] = ['3', '6'] :=
  parse_price_separator_policy_and_examples.1 ['3', '6'] (by decide)

/-- Counterexample to claim C5 as stated: `MorningstarScraper._parsear_precio`
returns the numeric value `0.0` on input `"0"`, which parses to a
non-positive number, instead of null. -/
theorem parse_price_nonpositive_counterexample :
    morningstar_parsear_precio "0" = some 0 ∧ ¬ (0 : ℚ) > 0 := by
  constructor
  · unfold morningstar_parsear_precio
    rw [show arreglarSeparadores (quitarMonedaEspacios ("0").data) = ['0'] from by decide]
    simp +decide [pyFloat, digitsVal]
  · norm_num

/-- Claim C5 as amended: the justETF parser variant returns null on empty
input and never returns a non-positive number, while the Morningstar
variant has no positivity check and returns the parsed value even when it
is zero or negative. -/
theorem parse_price_nonpositive_amended :
    (∀ (s : String) (v : ℚ), justetf_parsear_precio s = some v → 0 < v) ∧
    justetf_parsear_precio "" = none ∧
    morningstar_parsear_precio "-5" = some (-5) := by
  refine ⟨?_, by decide, ?_⟩
  · intro s v h
    unfold justetf_parsear_precio at h
    split at h
    · exact absurd h (by simp)
    · dsimp only at h
      split at h
      · exact absurd h (by simp)
      · split at h
        next w heq =>
          split at h
          next hw =>
            obtain rfl : w = v := by simpa using h
            exact hw
          next => exact absurd h (by simp)
        next => exact absurd h (by simp)
  · unfold morningstar_parsear_precio
    rw [show arreglarSeparadores (quitarMonedaEspacios ("-5").data) = ['-', '5'] from by decide]
    simp +decide [pyFloat, digitsVal]

/-- Witness for the amended C5: the positivity guarantee instantiated at the
concrete input `"36,00"`. -/
theorem parse_price_nonpositive_amended_witness : (0 : ℚ) < 36 :=
  parse_price_nonpositive_amended.1 "36,00" 36 (by
    unfold justetf_parsear_precio
    rw [show ((quitarMonedaEspacios ("36,00").data).filter (fun c => !c.isAlpha))
        = ['3', '6', ',', '0', '0'] from by decide]
    simp +decide only []
    rw [show arreglarSeparadores ['3', '6', ',', '0', '0']
        = ['3', '6', '.', '0', '0'] from by decide]
    simp +decide [pyFloat, digitsVal])

/-- Counterexample to claim C1 as stated: with no usable ticker, justETF
returning an informational-only Quote (price 0, name ≠ ISIN) and
Morningstar returning a tradable Quote (price 3 > 0), the code returns
justETF's informational Quote — so the adapters are tried ETF-data first,
not fund-data first, and an adapter returning `price > 0` does not win. -/
theorem resolver_order_counterexample :
    resolver_chain
        ⟨fun _ => none, fun _ => some ⟨0, "Fondo J", "justETF (sin precio)"⟩,
          fun _ => some ⟨3, "Fondo M", "Morningstar"⟩⟩
        "" (some "IE00TEST")
      = some ⟨0, "Fondo J", "justETF (sin precio)"⟩ ∧
    resolve_claim_order
        ⟨fun _ => none, fun _ => some ⟨0, "Fondo J", "justETF (sin precio)"⟩,
          fun _ => some ⟨3, "Fondo M", "Morningstar"⟩⟩
        "" (some "IE00TEST")
      = some ⟨3, "Fondo M", "Morningstar"⟩ ∧
    (⟨0, "Fondo J", "justETF (sin precio)"⟩ : Quote)
      ≠ ⟨3, "Fondo M", "Morningstar"⟩ := by
  refine ⟨?_, ?_, by simp⟩
  · simp [resolver_chain, buscar_precio_alternativo, isinTruthy]
  · simp [resolve_claim_order, isinTruthy]

/-- Claim C1 as amended: for every resolution request, the fetch chain of
`obtener_precio` tries Yahoo by ticker first (when the ticker is
non-blank); if that yields no result and an ISIN is present it tries the
ETF-data adapter (justETF) first and then the fund-data adapter
(Morningstar), by ISIN, and the first adapter returning a Quote whose
price is positive or whose name differs from the ISIN wins and
short-circuits the chain. -/
theorem resolver_order_amended :
    ∀ (net : Net) (ticker : String) (isin : Option String),
      resolver_chain net ticker isin = resolve_amended_order net ticker isin := by
  intro net ticker isin
  rfl

/-- Counterexample to claim C2 as stated: the direct justETF-chart path of
`obtener_cambio_diario_con_info` computes a change from the last two series
points with no gap check — here the two points are 10 calendar days apart
and a change of 10% is still returned instead of null. -/
theorem daily_change_gap_counterexample :
    conInfoCambio (some [⟨0, 100⟩, ⟨10, 110⟩]) none = some 10 ∧
    (([⟨0, 100⟩, ⟨10, 110⟩] : List PuntoSerie).getD 1 ⟨0, 0⟩).fecha
      - (([⟨0, 100⟩, ⟨10, 110⟩] : List PuntoSerie).getD 0 ⟨0, 0⟩).fecha > 4 := by
  constructor
  · simp [conInfoCambio]
    norm_num
  · simp

/-- Claim C2 as amended: the 4-calendar-day gap guard holds in the Yahoo
history fallback and in the justETF-historical last-resort fallback — each
returns a change only when the last two dates are at most 4 days apart —
but the direct justETF-chart computation inside
`obtener_cambio_diario_con_info` has no such guard and can return a change
from points arbitrarily far apart. -/
theorem daily_change_gap_amended :
    (∀ (hist : List (Nat × ℚ)) (c : ℚ), yahooHistChange hist = some c →
      (hist.getD (hist.length - 1) (0, 0)).1 - (hist.getD (hist.length - 2) (0, 0)).1 ≤ 4) ∧
    (∀ (fechas : List Nat) (precios : List ℚ) (c : ℚ),
      justetfHistCambio fechas precios = some c → fechas.length ≥ 2 →
      fechas.getD (fechas.length - 1) 0 - fechas.getD (fechas.length - 2) 0 ≤ 4) := by
  constructor
  · intro hist c h
    unfold yahooHistChange at h
    split at h
    · dsimp only at h
      split at h
      next hgap => exact hgap
      next => exact absurd h (by simp)
    · exact absurd h (by simp)
  · intro fechas precios c h hlen
    unfold justetfHistCambio at h
    split at h
    · dsimp only at h
      split at h
      next => exact absurd h (by simp)
      next hcond =>
        have := not_and.mp hcond hlen
        omega
    · exact absurd h (by simp)

/-- Witness for the amended C2: the Yahoo history-fallback guard
instantiated at a concrete two-point history with a 2-day gap. -/
theorem daily_change_gap_amended_witness :
    (([((0 : Nat), (100 : ℚ)), (2, 110)] : List (Nat × ℚ)).getD 1 (0, 0)).1
      - (([((0 : Nat), (100 : ℚ)), (2, 110)] : List (Nat × ℚ)).getD 0 (0, 0)).1 ≤ 4 :=
  daily_change_gap_amended.1 [(0, 100), (2, 110)] 10 (by
    unfold yahooHistChange
    norm_num)

/-- Dict write then read of the same key yields the new entry. -/
theorem assocLookup_assocInsert (s : List (String × Nat × Quote)) (k : String)
    (now : Nat) (q : Quote) :
    assocLookup (assocInsert s k now q) k = some (now, q) := by
  simp [assocInsert, assocLookup]

/-- Claim C3: when the first `obtener_precio` call for an identity (one with
no pre-existing cache entry) returned a Quote, a second call with the same
identity within the 15-minute TTL window returns exactly the same Quote,
leaves the cache untouched, and performs no adapter/network fetch. -/
theorem resolve_quote_cache_idempotent (net : Net) (s0 s1 : PFState)
    (t1 t2 : Nat) (ticker : String) (isin : Option String) (q : Quote) (b : Bool)
    (hfirst : assocLookup s0 (cache_key ticker isin) = none)
    (h1 : obtener_precio net s0 t1 ticker isin = (some q, s1, b))
    (httl : t2 - t1 < PF_CACHE_SECONDS) :
    obtener_precio net s1 t2 ticker isin = (some q, s1, false) := by
  have hmiss : pfCacheGet s0 t1 (cache_key ticker isin) = none := by
    simp [pfCacheGet, hfirst]
  unfold obtener_precio at h1 ⊢
  dsimp only at h1 ⊢
  rw [hmiss] at h1
  cases hres : resolver_chain net ticker isin with
  | none => rw [hres] at h1; simp at h1
  | some q' =>
    rw [hres] at h1
    simp only [Prod.mk.injEq, Option.some.injEq] at h1
    obtain ⟨rfl, rfl, -⟩ := h1
    have hhit : pfCacheGet (assocInsert s0 (cache_key ticker isin) t1 q') t2
        (cache_key ticker isin) = some q' := by
      simp [pfCacheGet, assocLookup_assocInsert, httl]
    rw [hhit]

/-- Witness for C3: a concrete first fetch at time 0 followed by a cache hit
at time 100. -/
theorem resolve_quote_cache_idempotent_witness :
    obtener_precio
        ⟨fun _ => some ⟨1, "Apple", "Yahoo Finance"⟩, fun _ => none, fun _ => none⟩
        [("AAPL", 0, ⟨1, "Apple", "Yahoo Finance"⟩)] 100 "AAPL" none
      = (some ⟨1, "Apple", "Yahoo Finance"⟩,
          [("AAPL", 0, ⟨1, "Apple", "Yahoo Finance"⟩)], false) :=
  resolve_quote_cache_idempotent
    ⟨fun _ => some ⟨1, "Apple", "Yahoo Finance"⟩, fun _ => none, fun _ => none⟩
    [] [("AAPL", 0, ⟨1, "Apple", "Yahoo Finance"⟩)] 0 100 "AAPL" none
    ⟨1, "Apple", "Yahoo Finance"⟩ true rfl
    (by
      simp [obtener_precio, pfCacheGet, assocLookup, resolver_chain,
        assocInsert, cache_key, isinTruthy,
        pyStrip])
    (by decide)

/-- Counterexample to claim C6 as stated: starting from a core state whose
justETF scraper cache and daily-change cache each hold an entry written at
the current instant, `limpiar_cache` leaves both entries live — a
subsequent lookup still finds cached data in those caches. -/
theorem limpiar_cache_counterexample :
    scraperCacheGet
        (limpiar_cache
          ⟨[("K", 100, ⟨2, "Algo", "Yahoo Finance"⟩)],
            [("M", 100, ⟨7, "Fondo M", "Morningstar"⟩)],
            [("J", 100, ⟨5, "Fondo J", "justETF"⟩)],
            ⟨[("I", 5)], some 100⟩⟩).justetf
        100 "J" = some ⟨5, "Fondo J", "justETF"⟩ ∧
    cdCacheGet
        (limpiar_cache
          ⟨[("K", 100, ⟨2, "Algo", "Yahoo Finance"⟩)],
            [("M", 100, ⟨7, "Fondo M", "Morningstar"⟩)],
            [("J", 100, ⟨5, "Fondo J", "justETF"⟩)],
            ⟨[("I", 5)], some 100⟩⟩).cd
        100 "I" = some 5 := by
  constructor
  · simp [limpiar_cache, scraperCacheGet, assocLookup, SCRAPER_CACHE_SECONDS]
  · simp [limpiar_cache, cdCacheGet, List.lookup, CD_CACHE_SECONDS]

/-- Claim C6 as amended: `limpiar_cache` empties only the resolver's own
quote cache; the two scraped-provider caches and the module-level
daily-change cache are left exactly as they were. -/
theorem limpiar_cache_amended :
    ∀ s : CoreState,
      (limpiar_cache s).pf = ([] : List (String × Nat × Quote)) ∧
      (limpiar_cache s).morningstar = s.morningstar ∧
      (limpiar_cache s).justetf = s.justetf ∧
      (limpiar_cache s).cd = s.cd := by
  intro s
  exact ⟨rfl, rfl, rfl, rfl⟩

/-- Counterexample to claim C7 as stated: the daily-change cache's entry for
"A" is written at time 0; a write for "B" at time 840 refreshes the single
shared `_cache_timestamp`; a lookup of "A" at time 960 — more than the
15-minute TTL after "A"'s own write — is still served from the cache (the
oracle for the third call has no data at all and no fetch happens, so the
returned value 10 can only come from the stale entry). -/
theorem cache_ttl_counterexample :
    (obtener_cambio_diario_yahoo ⟨none, none, []⟩
      ((obtener_cambio_diario_yahoo ⟨some 50, some 40, []⟩
        ((obtener_cambio_diario_yahoo ⟨some 110, some 100, []⟩ ⟨[], none⟩ 0 "A").2.1)
        840 "B").2.1)
      960 "A").1 = some 10 ∧
    (obtener_cambio_diario_yahoo ⟨none, none, []⟩
      ((obtener_cambio_diario_yahoo ⟨some 50, some 40, []⟩
        ((obtener_cambio_diario_yahoo ⟨some 110, some 100, []⟩ ⟨[], none⟩ 0 "A").2.1)
        840 "B").2.1)
      960 "A").2.2 = false ∧
    CD_CACHE_SECONDS ≤ 960 - 0 := by
  norm_num [obtener_cambio_diario_yahoo, cdCacheGet, cdCachePut, yahooHistChange,
    CD_CACHE_SECONDS, List.lookup, List.filter,
    show ("B" == "A") = false from by decide,
    show ("A" == "B") = false from by decide,
    show ("A" == "A") = true from by decide,
    show ("A" = "B") = False from by simp,
    show ("B" = "A") = False from by simp]

/-- Claim C7 as amended: the resolver's quote cache (15-minute TTL) and the
scraped-provider caches (30-minute TTL) serve an entry only while `now`
minus that entry's own timestamp is under the TTL; the daily-change cache
instead checks one module-level timestamp that every write refreshes — it
serves an entry exactly when that shared timestamp is fresh and the key is
present, regardless of when the entry itself was written. -/
theorem cache_ttl_amended :
    (∀ (s : PFState) (now : Nat) (k : String) (q : Quote),
      pfCacheGet s now k = some q →
        ∃ ts, assocLookup s k = some (ts, q) ∧ now - ts < PF_CACHE_SECONDS) ∧
    (∀ (s : ScraperState) (now : Nat) (k : String) (q : Quote),
      scraperCacheGet s now k = some q →
        ∃ ts, assocLookup s k = some (ts, q) ∧ now - ts < SCRAPER_CACHE_SECONDS) ∧
    (∀ (s : CDState) (now : Nat) (k : String) (v : ℚ),
      cdCacheGet s now k = some v ↔
        ∃ t, s.ts = some t ∧ now - t < CD_CACHE_SECONDS ∧ s.cache.lookup k = some v) := by
  refine ⟨?_, ?_, ?_⟩
  · intro s now k q h
    unfold pfCacheGet at h
    cases hl : assocLookup s k with
    | none => rw [hl] at h; simp at h
    | some p =>
      obtain ⟨ts, q'⟩ := p
      rw [hl] at h
      dsimp only at h
      split at h
      next hlt =>
        obtain rfl : q' = q := by simpa using h
        exact ⟨ts, rfl, hlt⟩
      next => simp at h
  · intro s now k q h
    unfold scraperCacheGet at h
    cases hl : assocLookup s k with
    | none => rw [hl] at h; simp at h
    | some p =>
      obtain ⟨ts, q'⟩ := p
      rw [hl] at h
      dsimp only at h
      split at h
      next hlt =>
        obtain rfl : q' = q := by simpa using h
        exact ⟨ts, rfl, hlt⟩
      next => simp at h
  · intro s now k v
    unfold cdCacheGet
    cases hts : s.ts with
    | none => simp
    | some t =>
      dsimp only
      split
      next hlt =>
        cases hlk : s.cache.lookup k with
        | none => simp [hlk]
        | some w => simp [hlk, hlt]
      next hlt => simp [hlt]

/-- Witness for the amended C7: the quote-cache conjunct instantiated at a
one-entry cache read 10 seconds after its write. -/
theorem cache_ttl_amended_witness :
    ∃ ts, assocLookup [("K", 0, ⟨2, "Algo", "Yahoo Finance"⟩)] "K"
        = some (ts, ⟨2, "Algo", "Yahoo Finance"⟩) ∧ 10 - ts < PF_CACHE_SECONDS :=
  cache_ttl_amended.1 [("K", 0, ⟨2, "Algo", "Yahoo Finance"⟩)] 10 "K"
    ⟨2, "Algo", "Yahoo Finance"⟩ (by rfl)

/-- Claim C8: on a cache miss, a fetch that yields `None` writes nothing —
the cache state is unchanged, so a retry re-fetches — while every non-`None`
result (informational-only Quotes included: no price condition is tested)
is written under the request's key with the current timestamp.  This holds
for both entry points, `obtener_precio` and `obtener_precio_por_isin`. -/
theorem fetch_cache_write_policy :
    ∀ (net : Net) (s0 : PFState) (now : Nat) (ticker : String)
      (isin : Option String) (isin2 : String),
      (pfCacheGet s0 now (cache_key ticker isin) = none →
        ((obtener_precio net s0 now ticker isin).1 = none →
          (obtener_precio net s0 now ticker isin).2.1 = s0) ∧
        (∀ q, (obtener_precio net s0 now ticker isin).1 = some q →
          assocLookup ((obtener_precio net s0 now ticker isin).2.1)
            (cache_key ticker isin) = some (now, q))) ∧
      (pfCacheGet s0 now ("isin_" ++ isin2) = none →
        ((obtener_precio_por_isin net s0 now isin2).1 = none →
          (obtener_precio_por_isin net s0 now isin2).2.1 = s0) ∧
        (∀ q, (obtener_precio_por_isin net s0 now isin2).1 = some q →
          assocLookup ((obtener_precio_por_isin net s0 now isin2).2.1)
            ("isin_" ++ isin2) = some (now, q))) := by
  intro net s0 now ticker isin isin2
  constructor
  · intro hmiss
    unfold obtener_precio
    dsimp only
    rw [hmiss]
    cases hres : resolver_chain net ticker isin with
    | none =>
      refine ⟨fun _ => rfl, fun q h => ?_⟩
      simp at h
    | some q' =>
      refine ⟨fun h => by simp at h, fun q h => ?_⟩
      obtain rfl : q' = q := by simpa using h
      exact assocLookup_assocInsert s0 (cache_key ticker isin) now q'
  · intro hmiss
    unfold obtener_precio_por_isin
    dsimp only
    rw [hmiss]
    cases hres : buscar_precio_alternativo net isin2 with
    | none =>
      refine ⟨fun _ => rfl, fun q h => ?_⟩
      simp at h
    | some q' =>
      refine ⟨fun h => by simp at h, fun q h => ?_⟩
      obtain rfl : q' = q := by simpa using h
      exact assocLookup_assocInsert s0 ("isin_" ++ isin2) now q'

/-- Witness for C8: with all adapters failing, a fetch for ticker "T" leaves
the empty cache unchanged. -/
theorem fetch_cache_write_policy_witness :
    (obtener_precio ⟨fun _ => none, fun _ => none, fun _ => none⟩ [] 0 "T" none).2.1
      = ([] : List (String × Nat × Quote)) :=
  ((fetch_cache_write_policy ⟨fun _ => none, fun _ => none, fun _ => none⟩
      [] 0 "T" none "X").1 rfl).1 rfl

/-- Claim C9: in the justETF branch of `api_historical`, when the live
gettex quote returned a (truthy) price, the date list is passed through
unchanged, every price except the last equals the source series value
rounded to 2 decimals, only the last price is replaced (by the rounded live
price), and the final change is recomputed from the new last price against
the series' own penultimate value exactly when no change had already been
obtained. -/
theorem justetf_branch_replaces_only_last (fechas : List String)
    (precios : List ℚ) (p : ℚ) (cambio_prev : Option ℚ)
    (hne : precios ≠ []) (hp : p ≠ 0) :
    (justetf_branch fechas precios (some p) cambio_prev).1 = fechas ∧
    (justetf_branch fechas precios (some p) cambio_prev).2.1.length
      = precios.length ∧
    (∀ i, i + 1 < precios.length →
      (justetf_branch fechas precios (some p) cambio_prev).2.1.getD i 0
        = round2 (precios.getD i 0)) ∧
    (justetf_branch fechas precios (some p) cambio_prev).2.1.getD
        (precios.length - 1) 0 = round2 p ∧
    (∀ c, cambio_prev = some c →
      (justetf_branch fechas precios (some p) cambio_prev).2.2 = some c) ∧
    (cambio_prev = none →
      (justetf_branch fechas precios (some p) cambio_prev).2.2 =
        if 2 ≤ precios.length then
          if precios.getD (precios.length - 2) 0 > 0 then
            some ((round2 p - precios.getD (precios.length - 2) 0)
              / precios.getD (precios.length - 2) 0 * 100)
          else none
        else none) := by
  have hn1 : 1 ≤ precios.length := List.length_pos.mpr hne
  have hHoy : ((precios.map round2).set ((precios.map round2).length - 1)
      (round2 p)).getD (((precios.map round2).set ((precios.map round2).length - 1)
        (round2 p)).length - 1) 0 = round2 p := by
    have hlt : precios.length - 1 < (precios.map round2).length := by simp; omega
    simp only [List.getD_eq_getElem?_getD, List.length_set, List.length_map,
      List.getElem?_set_self hlt]
    simp
  refine ⟨rfl, ?_, ?_, ?_, ?_, ?_⟩
  · unfold justetf_branch
    dsimp only
    rw [if_pos hp]
    simp
  · intro i hi
    unfold justetf_branch
    dsimp only
    rw [if_pos hp]
    have hne1 : precios.length - 1 ≠ i := by omega
    have hilt : i < precios.length := by omega
    simp only [List.getD_eq_getElem?_getD, List.length_map,
      List.getElem?_set_ne hne1, List.getElem?_map]
    rw [List.getElem?_eq_getElem hilt]
    simp
  · unfold justetf_branch
    dsimp only
    rw [if_pos hp]
    have hlt : precios.length - 1 < (precios.map round2).length := by simp; omega
    simp only [List.getD_eq_getElem?_getD, List.length_set, List.length_map,
      List.getElem?_set_self hlt]
    simp
  · intro c hc
    unfold justetf_branch
    rw [hc]
  · intro hn
    unfold justetf_branch
    dsimp only
    rw [if_pos hp, hn]
    dsimp only
    rw [hHoy]
    simp only [List.length_set, List.length_map]

/-- Witness for C9: the date-list frame condition instantiated at a concrete
two-point series with live price 3. -/
theorem justetf_branch_replaces_only_last_witness :
    (justetf_branch ["2025-12-22", "2025-12-23"] [1, 2] (some 3) none).1
      = ["2025-12-22", "2025-12-23"] :=
  (justetf_branch_replaces_only_last ["2025-12-22", "2025-12-23"] [1, 2] 3 none
    (by simp) (by norm_num)).1

/-- Counterexample to claim C10 as stated: `"US0378331005"` is syntactically
a 12-character ISIN, yet with no (or a non-European) `isin` query parameter
`api_historical` takes the non-European path, which attempts the Yahoo
historical fetch with it — that path has no ISIN-shape test. -/
theorem historical_isin_ticker_counterexample :
    ticker_es_isin "US0378331005" = true ∧
    api_historical_yahoo_attempted "US0378331005" "" = true := by
  constructor
  · decide
  · decide

/-- Claim C10 as amended: only in the European-ETF branch (non-empty ISIN
with prefix IE/LU/DE/FR/NL/GB) does `api_historical` refuse to query the
primary market adapter with an ISIN-shaped ticker; in the non-European
branch the Yahoo historical fetch is attempted for every non-placeholder
ticker, ISIN-shaped or not. -/
theorem historical_isin_ticker_amended :
    (∀ t i : String, es_etf_europeo i = true → ticker_es_isin t = true →
      api_historical_yahoo_attempted t i = false) ∧
    (∀ t i : String, es_etf_europeo i = false →
      api_historical_yahoo_attempted t i = (t ≠ "" && !tickerPlaceholder t)) := by
  constructor
  · intro t i he ht
    simp [api_historical_yahoo_attempted, he, ticker_valido_yahoo, ht]
  · intro t i he
    simp [api_historical_yahoo_attempted, he]

/-- Witness for the amended C10: in the European branch an ISIN-shaped
ticker never reaches the Yahoo historical fetch. -/
theorem historical_isin_ticker_amended_witness :
    api_historical_yahoo_attempted "IE00B4L5Y983" "IE00B4L5Y983" = false :=
  historical_isin_ticker_amended.1 "IE00B4L5Y983" "IE00B4L5Y983"
    (by decide) (by decide)

end Portfolio
